import Mathlib

/-!
# examples/bridge_client.go

A shallow embedding of the demo client of the Roon gRPC bridge.

The client talks to a server through the generated `pb.RoonServiceClient`
interface.  The server (and the transport) is an arbitrary state machine:
every RPC takes the current server state and the request and yields the next
state together with either a response or an error.  A run of the client
records every RPC it issues, request and result, in a trace, and ends in one
of three ways: it returns, it exits through `log.Fatalf`, or it panics.
-/

namespace BridgeClient

/-! ## Messages of the generated protobuf package

The message and enum declarations live in the generated package
`protos/roon_go_proto`.  The structures below carry the fields the client
reads or writes; a field a Go struct literal leaves out has its zero value.
Responses are decoded messages: a response that comes without an error is not
nil and the elements of a repeated field are not nil, while a sub-message
field (`List`, `Zone`) is a pointer that may be nil.  Counts and offsets are
natural numbers. -/

/-- Go `error` values; `io.EOF` is the one the client compares against. -/
inductive GoError where
  | EOF
  | other (msg : String)
  deriving DecidableEq, Repr

/-- The generated enum type `pb.BrowseHierarchy` (an integer type in Go). -/
abbrev BrowseHierarchy := Int

/-- The generated enum type `pb.BrowseAction` (an integer type in Go). -/
abbrev BrowseAction := Int

/-- The two enum constants of package `pb` the client names.  Their numeric
values are fixed by the generated package and are taken as parameters. -/
structure Pb where
  BrowseHierarchy_albums : BrowseHierarchy
  BrowseAction_list : BrowseAction
  deriving DecidableEq, Repr

/-- Message `pb.BrowseRequest`. -/
structure BrowseRequest where
  Hierarchy : BrowseHierarchy
  ItemKey : String := ""
  PopAll : Bool := false
  ZoneOrOutputId : String := ""
  deriving DecidableEq, Repr

/-- Message `pb.BrowseList`: the list payload of a browse response.  `Count`
is the total item count of the level. -/
structure BrowseList where
  Count : Nat
  deriving DecidableEq, Repr

/-- Message `pb.BrowseResponse`; `List` is a pointer field and may be nil. -/
structure BrowseResponse where
  Action : BrowseAction
  List : Option BrowseList
  deriving DecidableEq, Repr

/-- Message `pb.LoadRequest`. -/
structure LoadRequest where
  Hierarchy : BrowseHierarchy
  Offset : Nat := 0
  Count : Nat := 0
  deriving DecidableEq, Repr

/-- Message `pb.BrowseItem`. -/
structure BrowseItem where
  ItemKey : String
  deriving DecidableEq, Repr

/-- Message `pb.LoadResponse`. -/
structure LoadResponse where
  Items : List BrowseItem
  deriving DecidableEq, Repr

/-- Message `pb.Zone`. -/
structure Zone where
  ZoneId : String
  deriving DecidableEq, Repr

/-- Message `pb.ListAllZonesResponse`. -/
structure ListAllZonesResponse where
  Zones : List Zone
  deriving DecidableEq, Repr

/-- Message `pb.GetZoneRequest`. -/
structure GetZoneRequest where
  ZoneId : String := ""
  deriving DecidableEq, Repr

/-- Message `pb.GetZoneResponse`; `Zone` is a pointer field and may be nil. -/
structure GetZoneResponse where
  Zone : Option Zone
  deriving DecidableEq, Repr

/-- One message of the zone subscription stream; the client only logs it. -/
structure SubscribeZonesResponse where
  Zones : List Zone
  deriving DecidableEq, Repr

/-- The result pair `(resp, err)` of a call: `Sum.inl err` when `err != nil`,
`Sum.inr resp` otherwise. -/
abbrev Rpc (α : Type) := Sum GoError α

/-! ## The server -/

/-- The interface `pb.RoonServiceClient` over a server with state `σ`,
together with `grpc.Dial` and the `Recv` method of the subscription stream. -/
structure RoonServiceClient (σ : Type) where
  Dial : σ → σ × Option GoError
  ListAllZones : σ → σ × Rpc ListAllZonesResponse
  GetZone : σ → GetZoneRequest → σ × Rpc GetZoneResponse
  Browse : σ → BrowseRequest → σ × Rpc BrowseResponse
  Load : σ → LoadRequest → σ × Rpc LoadResponse
  SubscribeZones : σ → σ × Option GoError
  Recv : σ → σ × Rpc SubscribeZonesResponse

/-! ## Runs -/

/-- One call made by the client, with its request and its result. -/
inductive Event where
  | Dial (err : Option GoError)
  | ListAllZones (res : Rpc ListAllZonesResponse)
  | GetZone (req : GetZoneRequest) (res : Rpc GetZoneResponse)
  | Browse (req : BrowseRequest) (res : Rpc BrowseResponse)
  | Load (req : LoadRequest) (res : Rpc LoadResponse)
  | SubscribeZones (err : Option GoError)
  | Recv (res : Rpc SubscribeZonesResponse)
  deriving DecidableEq, Repr

/-- The `log.Fatalf` calls of the program, by source line. -/
inductive FatalSite where
  | connect          -- line 17
  | listAllZones     -- line 27
  | getZone          -- line 33
  | subscribe        -- line 41
  | recv             -- line 50
  | playAlbum        -- line 83
  | browse           -- line 92
  | nonList          -- line 95
  | load             -- line 104
  deriving DecidableEq, Repr

/-- The run-time panics of the program, by the expression that raises them. -/
inductive PanicSite where
  | zonesIndex       -- `zones.Zones[0]`, line 31
  | zoneNil          -- `zone.Zone.ZoneId`, line 37
  | itemsIndex1      -- `resp.Items[0]`, line 66
  | itemsIndex2      -- `resp.Items[0]`, line 72
  | itemsIndex3      -- `resp.Items[0]`, line 78
  | listNil          -- `browseResp.List.Count`, line 100
  deriving DecidableEq, Repr

/-- How a piece of the program ends. -/
inductive Outcome (α : Type) where
  | returned (a : α)
  | fatal (site : FatalSite)
  | panic (site : PanicSite)
  deriving DecidableEq, Repr

/-- A finished run: the server state left behind, the calls made in order,
and the way the run ended. -/
structure Run (σ α : Type) where
  state : σ
  trace : List Event
  result : Outcome α

/-- The panics raised by an index expression. -/
def PanicSite.isIndex : PanicSite → Bool
  | .zonesIndex => true
  | .itemsIndex1 => true
  | .itemsIndex2 => true
  | .itemsIndex3 => true
  | .zoneNil => false
  | .listNil => false

/-! ## The program -/

variable {σ : Type}

/-- Function `browseAndLoadList`, lines 89-107. -/
def browseAndLoadList (pb : Pb) (c : RoonServiceClient σ) (s : σ) (browse : BrowseRequest) :
    Run σ LoadResponse :=
  match c.Browse s browse with
  | (s1, .inl err) => ⟨s1, [.Browse browse (.inl err)], .fatal .browse⟩
  | (s1, .inr browseResp) =>
    if browseResp.Action ≠ pb.BrowseAction_list ∨ browseResp.List = none then
      ⟨s1, [.Browse browse (.inr browseResp)], .fatal .nonList⟩
    else
      match browseResp.List with
      | none => ⟨s1, [.Browse browse (.inr browseResp)], .panic .listNil⟩
      | some list =>
        let loadReq : LoadRequest := { Hierarchy := browse.Hierarchy, Count := list.Count }
        match c.Load s1 loadReq with
        | (s2, .inl err) =>
          ⟨s2, [.Browse browse (.inr browseResp), .Load loadReq (.inl err)], .fatal .load⟩
        | (s2, .inr loadResp) =>
          ⟨s2, [.Browse browse (.inr browseResp), .Load loadReq (.inr loadResp)],
            .returned loadResp⟩

/-- Sequencing of two pieces of the program: the second runs from the state
the first leaves, and only if the first returned; a fatal exit or a panic ends
the whole run there. -/
def Run.andThen {α β : Type} (r : Run σ α) (k : σ → α → Run σ β) : Run σ β :=
  match r.result with
  | .returned a => ⟨(k r.state a).state, r.trace ++ (k r.state a).trace, (k r.state a).result⟩
  | .fatal site => ⟨r.state, r.trace, .fatal site⟩
  | .panic site => ⟨r.state, r.trace, .panic site⟩

/-- The index expression `xs[0]`: it panics on an empty slice. -/
def index0 {α : Type} (s : σ) (xs : List α) (site : PanicSite) : Run σ α :=
  match xs with
  | [] => ⟨s, [], .panic site⟩
  | x :: _ => ⟨s, [], .returned x⟩

/-- The final call of `playFirstAlbum`, lines 76-84. -/
def playAlbumCall (c : RoonServiceClient σ) (s : σ) (playAlbum : BrowseRequest) : Run σ Unit :=
  match c.Browse s playAlbum with
  | (s1, .inl err) => ⟨s1, [.Browse playAlbum (.inl err)], .fatal .playAlbum⟩
  | (s1, .inr resp) => ⟨s1, [.Browse playAlbum (.inr resp)], .returned ()⟩

/-- Function `playFirstAlbum`, lines 57-85. -/
def playFirstAlbum (pb : Pb) (c : RoonServiceClient σ) (s : σ) (zoneID : String) : Run σ Unit :=
  let browseAlbums : BrowseRequest := { Hierarchy := pb.BrowseHierarchy_albums, PopAll := true }
  (browseAndLoadList pb c s browseAlbums).andThen fun s1 resp1 =>
  (index0 s1 resp1.Items .itemsIndex1).andThen fun s2 item1 =>
  let browseAlbum0 : BrowseRequest :=
    { Hierarchy := pb.BrowseHierarchy_albums, ItemKey := item1.ItemKey }
  (browseAndLoadList pb c s2 browseAlbum0).andThen fun s3 resp2 =>
  (index0 s3 resp2.Items .itemsIndex2).andThen fun s4 item2 =>
  let browseItemActions : BrowseRequest :=
    { Hierarchy := pb.BrowseHierarchy_albums, ItemKey := item2.ItemKey }
  (browseAndLoadList pb c s4 browseItemActions).andThen fun s5 resp3 =>
  (index0 s5 resp3.Items .itemsIndex3).andThen fun s6 item3 =>
  let playAlbum : BrowseRequest :=
    { Hierarchy := pb.BrowseHierarchy_albums, ItemKey := item3.ItemKey,
      ZoneOrOutputId := zoneID }
  playAlbumCall c s6 playAlbum

/-- The loop of `main`, lines 43-53, entered with loop variable `i`. -/
def recvLoop (c : RoonServiceClient σ) (s : σ) (i : Nat) : Run σ Unit :=
  if i ≤ 10 then
    match c.Recv s with
    | (s1, .inl .EOF) => ⟨s1, [.Recv (.inl .EOF)], .returned ()⟩
    | (s1, .inl (.other msg)) => ⟨s1, [.Recv (.inl (.other msg))], .fatal .recv⟩
    | (s1, .inr resp) =>
      ⟨(recvLoop c s1 (i + 1)).state, .Recv (.inr resp) :: (recvLoop c s1 (i + 1)).trace,
        (recvLoop c s1 (i + 1)).result⟩
  else
    ⟨s, [], .returned ()⟩
termination_by 11 - i

/-- The calls of `main` up to and including `GetZone`, lines 15-35; the value
is the response `zone`. -/
def connectAndGetZone (c : RoonServiceClient σ) (s : σ) : Run σ GetZoneResponse :=
  match c.Dial s with
  | (s1, some err) => ⟨s1, [.Dial (some err)], .fatal .connect⟩
  | (s1, none) =>
    match c.ListAllZones s1 with
    | (s2, .inl err) => ⟨s2, [.Dial none, .ListAllZones (.inl err)], .fatal .listAllZones⟩
    | (s2, .inr zones) =>
      match zones.Zones with
      | [] => ⟨s2, [.Dial none, .ListAllZones (.inr zones)], .panic .zonesIndex⟩
      | zone0 :: _ =>
        let req : GetZoneRequest := { ZoneId := zone0.ZoneId }
        match c.GetZone s2 req with
        | (s3, .inl err) =>
          ⟨s3, [.Dial none, .ListAllZones (.inr zones), .GetZone req (.inl err)],
            .fatal .getZone⟩
        | (s3, .inr zone) =>
          ⟨s3, [.Dial none, .ListAllZones (.inr zones), .GetZone req (.inr zone)],
            .returned zone⟩

/-- The subscription part of `main`, lines 39-53. -/
def subscribeAndReceive (c : RoonServiceClient σ) (s : σ) : Run σ Unit :=
  match c.SubscribeZones s with
  | (s1, some err) => ⟨s1, [.SubscribeZones (some err)], .fatal .subscribe⟩
  | (s1, none) =>
    ⟨(recvLoop c s1 1).state, .SubscribeZones none :: (recvLoop c s1 1).trace,
      (recvLoop c s1 1).result⟩

/-- The pointer dereference `zone.Zone` of line 37. -/
def derefZone (s : σ) (zone : GetZoneResponse) : Run σ Zone :=
  match zone.Zone with
  | none => ⟨s, [], .panic .zoneNil⟩
  | some z => ⟨s, [], .returned z⟩

/-- Function `main`, lines 14-54. -/
def main (pb : Pb) (c : RoonServiceClient σ) (s : σ) : Run σ Unit :=
  (connectAndGetZone c s).andThen fun s1 zone =>
  (derefZone s1 zone).andThen fun s2 z =>
  (playFirstAlbum pb c s2 z.ZoneId).andThen fun s3 _ =>
  subscribeAndReceive c s3

/-! ## Predicates on call results and traces -/

/-- The test of line 94 on the result of a `Browse` call: the call returned
no error, the action is `list` and `List` is not nil. -/
def listOutcome (pb : Pb) : Rpc BrowseResponse → Bool
  | .inr br => decide (br.Action = pb.BrowseAction_list) && br.List.isSome
  | .inl _ => false

/-- The Browse calls of a trace, in order, each with its request and result. -/
def browseCalls : List Event → List (BrowseRequest × Rpc BrowseResponse)
  | [] => []
  | .Browse req res :: t => (req, res) :: browseCalls t
  | _ :: t => browseCalls t

/-- The call returned an error. -/
def Event.failed : Event → Bool
  | .Dial err => err.isSome
  | .ListAllZones res => res.isLeft
  | .GetZone _ res => res.isLeft
  | .Browse _ res => res.isLeft
  | .Load _ res => res.isLeft
  | .SubscribeZones err => err.isSome
  | .Recv res => res.isLeft

/-- A Load call that succeeded with zero items. -/
def Event.emptyItems : Event → Bool
  | .Load _ (.inr resp) => resp.Items.isEmpty
  | _ => false

/-- A ListAllZones call that succeeded with zero zones. -/
def Event.emptyZones : Event → Bool
  | .ListAllZones (.inr resp) => resp.Zones.isEmpty
  | _ => false

/-- The server state after `n` calls of `Recv` made from state `s`. -/
def recvState (c : RoonServiceClient σ) (s : σ) : Nat → σ
  | 0 => s
  | n + 1 => recvState c (c.Recv s).1 n

/-- The result of call number `n + 1` in a row of `Recv` calls made from state
`s`: the stream the server offers, whether or not the client reads that far. -/
def recvResult (c : RoonServiceClient σ) (s : σ) (n : Nat) : Rpc SubscribeZonesResponse :=
  (c.Recv (recvState c s n)).2

/-- The event is a `Recv` call. -/
def Event.isRecv : Event → Bool
  | .Recv _ => true
  | _ => false

/-- An index panic ended the run exactly when the trace holds a successful
ListAllZones call with zero zones or a successful Load call with zero items. -/
def IndexPanicIff {α : Type} (r : Run σ α) : Prop :=
  (∃ p, r.result = .panic p ∧ p.isIndex = true) ↔
    ∃ e ∈ r.trace, e.emptyZones = true ∨ e.emptyItems = true

/-- The request carries an item key: its `ItemKey` is not the empty string,
the zero value of the field. -/
def BrowseRequest.hasItemKey (b : BrowseRequest) : Bool :=
  decide (b.ItemKey ≠ "")

/-- The request carries a pop directive. -/
def BrowseRequest.hasPop (b : BrowseRequest) : Bool :=
  b.PopAll

/-- The request carries exactly one of a pop directive and an item key. -/
def BrowseRequest.exactlyOne (b : BrowseRequest) : Bool :=
  xor b.hasPop b.hasItemKey

/-- A Load call that succeeded with a first item whose key is the empty
string. -/
def Event.emptyFirstKey : Event → Bool
  | .Load _ (.inr resp) =>
    match resp.Items with
    | item :: _ => decide (item.ItemKey = "")
    | [] => false
  | _ => false

/-- The server answers the Browse `b` from state `s` with a list outcome and
then answers the Load request for that list with the response `lr`. -/
def LoadSucceeds (pb : Pb) (c : RoonServiceClient σ) (s : σ) (b : BrowseRequest)
    (lr : LoadResponse) : Prop :=
  ∃ br l, (c.Browse s b).2 = .inr br ∧ br.Action = pb.BrowseAction_list ∧ br.List = some l ∧
    (c.Load (c.Browse s b).1 { Hierarchy := b.Hierarchy, Count := l.Count }).2 = .inr lr

/-! ## Sample servers -/

/-- Sample values for the two enum constants. -/
def samplePb : Pb := { BrowseHierarchy_albums := 4, BrowseAction_list := 1 }

/-- A server that answers every call: every browse yields a list outcome whose
count is the number of `items`, every load yields `items`, the zone list is
`zones`, and the `n`-th `Recv` of the subscription yields `stream n`. -/
def sampleServer (items : List BrowseItem) (zones : List Zone)
    (stream : Nat → Rpc SubscribeZonesResponse) : RoonServiceClient Nat where
  Dial s := (s, none)
  ListAllZones s := (s, .inr { Zones := zones })
  GetZone s req := (s, .inr { Zone := some { ZoneId := req.ZoneId } })
  Browse s _ := (s, .inr { Action := samplePb.BrowseAction_list, List := some { Count := items.length } })
  Load s _ := (s, .inr { Items := items })
  SubscribeZones _ := (0, none)
  Recv s := (s + 1, stream s)

/-- A stream that never ends and never fails. -/
def endlessStream : Nat → Rpc SubscribeZonesResponse :=
  fun _ => .inr { Zones := [] }

/-- The run of `playFirstAlbum` against a server whose every Load response is
one item with an empty key. -/
def emptyKeyRun : Run Nat Unit :=
  playFirstAlbum samplePb (sampleServer [⟨""⟩] [] endlessStream) 0 "z1"

/-- A stream whose third `Recv` reports `io.EOF`. -/
def shortStream : Nat → Rpc SubscribeZonesResponse :=
  fun n => if n = 2 then .inl .EOF else .inr { Zones := [] }

/-! ## Shapes of runs -/

/-- The four ways `browseAndLoadList` can run. -/
inductive BalCase (pb : Pb) (c : RoonServiceClient σ) (s : σ) (b : BrowseRequest) :
    Run σ LoadResponse → Prop where
  | browseErr (s1 : σ) (err : GoError) (h : c.Browse s b = (s1, .inl err)) :
      BalCase pb c s b ⟨s1, [.Browse b (.inl err)], .fatal .browse⟩
  | nonList (s1 : σ) (br : BrowseResponse) (h : c.Browse s b = (s1, .inr br))
      (hn : br.Action ≠ pb.BrowseAction_list ∨ br.List = none) :
      BalCase pb c s b ⟨s1, [.Browse b (.inr br)], .fatal .nonList⟩
  | loadErr (s1 s2 : σ) (br : BrowseResponse) (l : BrowseList) (err : GoError)
      (h : c.Browse s b = (s1, .inr br)) (ha : br.Action = pb.BrowseAction_list)
      (hl : br.List = some l)
      (h2 : c.Load s1 { Hierarchy := b.Hierarchy, Count := l.Count } = (s2, .inl err)) :
      BalCase pb c s b
        ⟨s2, [.Browse b (.inr br), .Load { Hierarchy := b.Hierarchy, Count := l.Count } (.inl err)],
          .fatal .load⟩
  | loaded (s1 s2 : σ) (br : BrowseResponse) (l : BrowseList) (lr : LoadResponse)
      (h : c.Browse s b = (s1, .inr br)) (ha : br.Action = pb.BrowseAction_list)
      (hl : br.List = some l)
      (h2 : c.Load s1 { Hierarchy := b.Hierarchy, Count := l.Count } = (s2, .inr lr)) :
      BalCase pb c s b
        ⟨s2, [.Browse b (.inr br), .Load { Hierarchy := b.Hierarchy, Count := l.Count } (.inr lr)],
          .returned lr⟩

/-- The traces of a `browseAndLoadList` call that exits the program. -/
inductive NavFail (pb : Pb) (b : BrowseRequest) : List Event → FatalSite → Prop where
  | browseErr (err : GoError) : NavFail pb b [.Browse b (.inl err)] .browse
  | nonList (br : BrowseResponse)
      (hn : br.Action ≠ pb.BrowseAction_list ∨ br.List = none) :
      NavFail pb b [.Browse b (.inr br)] .nonList
  | loadErr (br : BrowseResponse) (l : BrowseList) (err : GoError)
      (ha : br.Action = pb.BrowseAction_list) (hl : br.List = some l) :
      NavFail pb b
        [.Browse b (.inr br), .Load { Hierarchy := b.Hierarchy, Count := l.Count } (.inl err)]
        .load

/-- The traces of a `browseAndLoadList` call that returns. -/
inductive NavOk (pb : Pb) (b : BrowseRequest) : List Event → LoadResponse → Prop where
  | mk (br : BrowseResponse) (l : BrowseList) (lr : LoadResponse)
      (ha : br.Action = pb.BrowseAction_list) (hl : br.List = some l) :
      NavOk pb b
        [.Browse b (.inr br), .Load { Hierarchy := b.Hierarchy, Count := l.Count } (.inr lr)] lr

/-- The runs of `playFirstAlbum`, as traces and results. -/
inductive PlayShape (pb : Pb) (zoneID : String) : List Event → Outcome Unit → Prop where
  | fail1 (t1 : List Event) (f : FatalSite)
      (h1 : NavFail pb { Hierarchy := pb.BrowseHierarchy_albums, PopAll := true } t1 f) :
      PlayShape pb zoneID t1 (.fatal f)
  | empty1 (t1 : List Event) (r1 : LoadResponse)
      (h1 : NavOk pb { Hierarchy := pb.BrowseHierarchy_albums, PopAll := true } t1 r1)
      (e1 : r1.Items = []) :
      PlayShape pb zoneID t1 (.panic .itemsIndex1)
  | fail2 (t1 t2 : List Event) (r1 : LoadResponse) (i1 : BrowseItem) (x1 : List BrowseItem)
      (f : FatalSite)
      (h1 : NavOk pb { Hierarchy := pb.BrowseHierarchy_albums, PopAll := true } t1 r1)
      (e1 : r1.Items = i1 :: x1)
      (h2 : NavFail pb { Hierarchy := pb.BrowseHierarchy_albums, ItemKey := i1.ItemKey } t2 f) :
      PlayShape pb zoneID (t1 ++ t2) (.fatal f)
  | empty2 (t1 t2 : List Event) (r1 r2 : LoadResponse) (i1 : BrowseItem)
      (x1 : List BrowseItem)
      (h1 : NavOk pb { Hierarchy := pb.BrowseHierarchy_albums, PopAll := true } t1 r1)
      (e1 : r1.Items = i1 :: x1)
      (h2 : NavOk pb { Hierarchy := pb.BrowseHierarchy_albums, ItemKey := i1.ItemKey } t2 r2)
      (e2 : r2.Items = []) :
      PlayShape pb zoneID (t1 ++ t2) (.panic .itemsIndex2)
  | fail3 (t1 t2 t3 : List Event) (r1 r2 : LoadResponse) (i1 i2 : BrowseItem)
      (x1 x2 : List BrowseItem) (f : FatalSite)
      (h1 : NavOk pb { Hierarchy := pb.BrowseHierarchy_albums, PopAll := true } t1 r1)
      (e1 : r1.Items = i1 :: x1)
      (h2 : NavOk pb { Hierarchy := pb.BrowseHierarchy_albums, ItemKey := i1.ItemKey } t2 r2)
      (e2 : r2.Items = i2 :: x2)
      (h3 : NavFail pb { Hierarchy := pb.BrowseHierarchy_albums, ItemKey := i2.ItemKey } t3 f) :
      PlayShape pb zoneID (t1 ++ (t2 ++ t3)) (.fatal f)
  | empty3 (t1 t2 t3 : List Event) (r1 r2 r3 : LoadResponse) (i1 i2 : BrowseItem)
      (x1 x2 : List BrowseItem)
      (h1 : NavOk pb { Hierarchy := pb.BrowseHierarchy_albums, PopAll := true } t1 r1)
      (e1 : r1.Items = i1 :: x1)
      (h2 : NavOk pb { Hierarchy := pb.BrowseHierarchy_albums, ItemKey := i1.ItemKey } t2 r2)
      (e2 : r2.Items = i2 :: x2)
      (h3 : NavOk pb { Hierarchy := pb.BrowseHierarchy_albums, ItemKey := i2.ItemKey } t3 r3)
      (e3 : r3.Items = []) :
      PlayShape pb zoneID (t1 ++ (t2 ++ t3)) (.panic .itemsIndex3)
  | playErr (t1 t2 t3 : List Event) (r1 r2 r3 : LoadResponse) (i1 i2 i3 : BrowseItem)
      (x1 x2 x3 : List BrowseItem) (err : GoError)
      (h1 : NavOk pb { Hierarchy := pb.BrowseHierarchy_albums, PopAll := true } t1 r1)
      (e1 : r1.Items = i1 :: x1)
      (h2 : NavOk pb { Hierarchy := pb.BrowseHierarchy_albums, ItemKey := i1.ItemKey } t2 r2)
      (e2 : r2.Items = i2 :: x2)
      (h3 : NavOk pb { Hierarchy := pb.BrowseHierarchy_albums, ItemKey := i2.ItemKey } t3 r3)
      (e3 : r3.Items = i3 :: x3) :
      PlayShape pb zoneID
        (t1 ++ (t2 ++ (t3 ++ [.Browse ⟨pb.BrowseHierarchy_albums, i3.ItemKey, false, zoneID⟩
          (.inl err)])))
        (.fatal .playAlbum)
  | played (t1 t2 t3 : List Event) (r1 r2 r3 : LoadResponse) (i1 i2 i3 : BrowseItem)
      (x1 x2 x3 : List BrowseItem) (resp : BrowseResponse)
      (h1 : NavOk pb { Hierarchy := pb.BrowseHierarchy_albums, PopAll := true } t1 r1)
      (e1 : r1.Items = i1 :: x1)
      (h2 : NavOk pb { Hierarchy := pb.BrowseHierarchy_albums, ItemKey := i1.ItemKey } t2 r2)
      (e2 : r2.Items = i2 :: x2)
      (h3 : NavOk pb { Hierarchy := pb.BrowseHierarchy_albums, ItemKey := i2.ItemKey } t3 r3)
      (e3 : r3.Items = i3 :: x3) :
      PlayShape pb zoneID
        (t1 ++ (t2 ++ (t3 ++ [.Browse ⟨pb.BrowseHierarchy_albums, i3.ItemKey, false, zoneID⟩
          (.inr resp)])))
        (.returned ())

/-! ## Shared lemmas -/

theorem browseAndLoadList_case (pb : Pb) (c : RoonServiceClient σ) (s : σ) (b : BrowseRequest) :
    BalCase pb c s b (browseAndLoadList pb c s b) := by
  unfold browseAndLoadList
  rcases h : c.Browse s b with ⟨s1, err | br⟩
  · exact .browseErr s1 err h
  · by_cases hn : br.Action ≠ pb.BrowseAction_list ∨ br.List = none
    · simp only [hn, if_true]
      exact .nonList s1 br h hn
    · simp only [hn, if_false]
      have ha : br.Action = pb.BrowseAction_list := by
        by_contra hc; exact hn (Or.inl hc)
      rcases hl : br.List with _ | l
      · exact absurd (Or.inr hl) hn
      · simp only []
        rcases h2 : c.Load s1 { Hierarchy := b.Hierarchy, Count := l.Count } with ⟨s2, err | lr⟩
        · exact .loadErr s1 s2 br l err h ha hl h2
        · exact .loaded s1 s2 br l lr h ha hl h2

theorem browseAndLoadList_nav (pb : Pb) (c : RoonServiceClient σ) (s : σ) (b : BrowseRequest) :
    (∃ f, NavFail pb b (browseAndLoadList pb c s b).trace f ∧
        (browseAndLoadList pb c s b).result = .fatal f) ∨
    (∃ lr, NavOk pb b (browseAndLoadList pb c s b).trace lr ∧
        (browseAndLoadList pb c s b).result = .returned lr) := by
  have hc := browseAndLoadList_case pb c s b
  generalize browseAndLoadList pb c s b = r at hc
  rcases hc with
    ⟨s1, err, h⟩ | ⟨s1, br, h, hn⟩ | ⟨s1, s2, br, l, err, h, ha, hl, h2⟩ |
    ⟨s1, s2, br, l, lr, h, ha, hl, h2⟩
  · exact Or.inl ⟨_, .browseErr err, rfl⟩
  · exact Or.inl ⟨_, .nonList br hn, rfl⟩
  · exact Or.inl ⟨_, .loadErr br l err ha hl, rfl⟩
  · exact Or.inr ⟨_, .mk br l lr ha hl, rfl⟩

theorem playFirstAlbum_shape (pb : Pb) (c : RoonServiceClient σ) (s : σ) (zoneID : String) :
    PlayShape pb zoneID (playFirstAlbum pb c s zoneID).trace
      (playFirstAlbum pb c s zoneID).result := by
  unfold playFirstAlbum
  simp only []
  rcases browseAndLoadList_nav pb c s { Hierarchy := pb.BrowseHierarchy_albums, PopAll := true }
    with ⟨f, h1, hr1⟩ | ⟨r1, h1, hr1⟩
  · simp only [Run.andThen, hr1]
    exact .fail1 _ f h1
  simp only [Run.andThen, hr1]
  rcases e1 : r1.Items with _ | ⟨i1, x1⟩
  · simp only [index0, List.append_nil]
    exact .empty1 _ r1 h1 e1
  simp only [index0, List.append_nil, List.nil_append]
  rcases browseAndLoadList_nav pb c (browseAndLoadList pb c s
      { Hierarchy := pb.BrowseHierarchy_albums, PopAll := true }).state
      { Hierarchy := pb.BrowseHierarchy_albums, ItemKey := i1.ItemKey }
    with ⟨f, h2, hr2⟩ | ⟨r2, h2, hr2⟩
  · simp only [hr2]
    exact .fail2 _ _ r1 i1 x1 f h1 e1 h2
  simp only [hr2]
  rcases e2 : r2.Items with _ | ⟨i2, x2⟩
  · simp only [List.append_nil]
    exact .empty2 _ _ r1 r2 i1 x1 h1 e1 h2 e2
  simp only [List.append_nil, List.nil_append]
  rcases browseAndLoadList_nav pb c (browseAndLoadList pb c (browseAndLoadList pb c s
      { Hierarchy := pb.BrowseHierarchy_albums, PopAll := true }).state
      { Hierarchy := pb.BrowseHierarchy_albums, ItemKey := i1.ItemKey }).state
      { Hierarchy := pb.BrowseHierarchy_albums, ItemKey := i2.ItemKey }
    with ⟨f, h3, hr3⟩ | ⟨r3, h3, hr3⟩
  · simp only [hr3]
    exact .fail3 _ _ _ r1 r2 i1 i2 x1 x2 f h1 e1 h2 e2 h3
  simp only [hr3]
  rcases e3 : r3.Items with _ | ⟨i3, x3⟩
  · simp only [List.append_nil]
    exact .empty3 _ _ _ r1 r2 r3 i1 i2 x1 x2 h1 e1 h2 e2 h3 e3
  simp only [List.append_nil, List.nil_append, playAlbumCall]
  rcases hp : c.Browse (browseAndLoadList pb c (browseAndLoadList pb c (browseAndLoadList pb c s
      { Hierarchy := pb.BrowseHierarchy_albums, PopAll := true }).state
      { Hierarchy := pb.BrowseHierarchy_albums, ItemKey := i1.ItemKey }).state
      { Hierarchy := pb.BrowseHierarchy_albums, ItemKey := i2.ItemKey }).state
      { Hierarchy := pb.BrowseHierarchy_albums, ItemKey := i3.ItemKey,
        ZoneOrOutputId := zoneID } with ⟨s7, err | resp⟩
  · exact .playErr _ _ _ r1 r2 r3 i1 i2 i3 x1 x2 x3 err h1 e1 h2 e2 h3 e3
  · exact .played _ _ _ r1 r2 r3 i1 i2 i3 x1 x2 x3 resp h1 e1 h2 e2 h3 e3

/-! ## browseAndLoadList -/

/-- C1: for every Browse request and every server, `browseAndLoadList` first
sends that Browse; when the call returned without error with action `list`
and a non-nil `List`, the run sends exactly one Load, directly after the
Browse; in every other case the Browse is the only call and no Load is sent. -/
theorem browseAndLoadList_load_only_after_list (pb : Pb) (c : RoonServiceClient σ) (s : σ)
    (b : BrowseRequest) :
    (listOutcome pb (c.Browse s b).2 = true ∧
      ∃ lreq lres, (browseAndLoadList pb c s b).trace =
        [.Browse b (c.Browse s b).2, .Load lreq lres]) ∨
    (listOutcome pb (c.Browse s b).2 = false ∧
      (browseAndLoadList pb c s b).trace = [.Browse b (c.Browse s b).2]) := by
  have hc := browseAndLoadList_case pb c s b
  generalize browseAndLoadList pb c s b = r at hc
  rcases hc with
    ⟨s1, err, h⟩ | ⟨s1, br, h, hn⟩ | ⟨s1, s2, br, l, err, h, ha, hl, h2⟩ |
    ⟨s1, s2, br, l, lr, h, ha, hl, h2⟩
  · right
    simp [h, listOutcome]
  · right
    rcases hn with hn | hn
    · simp [h, listOutcome, hn]
    · simp [h, listOutcome, hn]
  · left
    simp [h, listOutcome, ha, hl]
  · left
    simp [h, listOutcome, ha, hl]

/-- C3: for every Browse request `b` and every list outcome with
`List.Count = n`, the Load request built by `browseAndLoadList` has the
hierarchy of `b`, count `n` and offset zero, so that offset + count is `n`,
lies between 0 and `n`, and `min count (n - offset)` is `n`. -/
theorem browseAndLoadList_load_request (pb : Pb) (c : RoonServiceClient σ) (s : σ)
    (b : BrowseRequest) (br : BrowseResponse) (n : Nat)
    (hb : (c.Browse s b).2 = .inr br) (ha : br.Action = pb.BrowseAction_list)
    (hl : br.List = some { Count := n }) :
    ∃ lreq lres, (browseAndLoadList pb c s b).trace = [.Browse b (.inr br), .Load lreq lres] ∧
      lreq = { Hierarchy := b.Hierarchy, Offset := 0, Count := n } ∧
      lreq.Hierarchy = b.Hierarchy ∧ lreq.Count = n ∧ lreq.Offset = 0 ∧
      lreq.Offset + lreq.Count = n ∧
      0 ≤ lreq.Offset + lreq.Count ∧ lreq.Offset + lreq.Count ≤ n ∧
      min lreq.Count (n - lreq.Offset) = n := by
  have hc := browseAndLoadList_case pb c s b
  generalize browseAndLoadList pb c s b = r at hc
  rcases hc with
    ⟨s1, err, h⟩ | ⟨s1, br1, h, hn⟩ | ⟨s1, s2, br1, l, err, h, ha1, hl1, h2⟩ |
    ⟨s1, s2, br1, l, lr, h, ha1, hl1, h2⟩
  · simp [h] at hb
  · simp only [h, Sum.inr.injEq] at hb
    subst hb
    rcases hn with hn | hn
    · exact absurd ha hn
    · simp [hn] at hl
  · simp only [h, Sum.inr.injEq] at hb
    subst hb
    simp only [hl, Option.some.injEq] at hl1
    subst hl1
    exact ⟨_, _, rfl, rfl, rfl, rfl, rfl, by simp, by simp, by simp, by simp⟩
  · simp only [h, Sum.inr.injEq] at hb
    subst hb
    simp only [hl, Option.some.injEq] at hl1
    subst hl1
    exact ⟨_, _, rfl, rfl, rfl, rfl, rfl, by simp, by simp, by simp, by simp⟩

theorem browseAndLoadList_load_request_witness :
    ∃ lreq lres,
      (browseAndLoadList samplePb (sampleServer [⟨"k0"⟩, ⟨"k1"⟩] [] endlessStream) 0
        { Hierarchy := 4, PopAll := true }).trace =
        [.Browse { Hierarchy := 4, PopAll := true } (.inr { Action := 1, List := some { Count := 2 } }),
          .Load lreq lres] ∧
      lreq = { Hierarchy := 4, Offset := 0, Count := 2 } ∧
      lreq.Hierarchy = 4 ∧ lreq.Count = 2 ∧ lreq.Offset = 0 ∧
      lreq.Offset + lreq.Count = 2 ∧
      0 ≤ lreq.Offset + lreq.Count ∧ lreq.Offset + lreq.Count ≤ 2 ∧
      min lreq.Count (2 - lreq.Offset) = 2 :=
  browseAndLoadList_load_request samplePb (sampleServer [⟨"k0"⟩, ⟨"k1"⟩] [] endlessStream) 0
    { Hierarchy := 4, PopAll := true } { Action := 1, List := some { Count := 2 } } 2 rfl rfl rfl

/-- C5: `browseAndLoadList` returns if and only if the Browse call succeeded
with action `list` and a non-nil `List` and the Load call succeeded, and the
value returned is then the server's Load response; on a Browse error, a
non-list action, a nil `List` or a Load error it exits the program through
`log.Fatalf`; it never ends in any other way. -/
theorem browseAndLoadList_returns_iff (pb : Pb) (c : RoonServiceClient σ) (s : σ)
    (b : BrowseRequest) :
    (∀ lr, (browseAndLoadList pb c s b).result = .returned lr ↔ LoadSucceeds pb c s b lr) ∧
    (∀ err, (c.Browse s b).2 = .inl err →
      (browseAndLoadList pb c s b).result = .fatal .browse) ∧
    (∀ br, (c.Browse s b).2 = .inr br → br.Action ≠ pb.BrowseAction_list →
      (browseAndLoadList pb c s b).result = .fatal .nonList) ∧
    (∀ br, (c.Browse s b).2 = .inr br → br.List = none →
      (browseAndLoadList pb c s b).result = .fatal .nonList) ∧
    (∀ br l err, (c.Browse s b).2 = .inr br → br.Action = pb.BrowseAction_list →
      br.List = some l →
      (c.Load (c.Browse s b).1 { Hierarchy := b.Hierarchy, Count := l.Count }).2 = .inl err →
      (browseAndLoadList pb c s b).result = .fatal .load) ∧
    ((∃ lr, (browseAndLoadList pb c s b).result = .returned lr) ∨
      (∃ site, (browseAndLoadList pb c s b).result = .fatal site)) := by
  have hc := browseAndLoadList_case pb c s b
  generalize browseAndLoadList pb c s b = r at hc
  rcases hc with
    ⟨s1, err, h⟩ | ⟨s1, br, h, hn⟩ | ⟨s1, s2, br, l, err, h, ha, hl, h2⟩ |
    ⟨s1, s2, br, l, lr, h, ha, hl, h2⟩
  · simp [h, LoadSucceeds]
  · simp only [h, LoadSucceeds]
    refine ⟨?_, by simp, by simp, by simp, ?_, by simp⟩
    · intro lr
      constructor
      · intro hr; simp at hr
      · rintro ⟨br1, l, hb, ha, hl, -⟩
        simp only [Sum.inr.injEq] at hb
        subst hb
        rcases hn with hn | hn
        · exact absurd ha hn
        · simp [hn] at hl
    · intro br1 l err hb ha hl
      simp only [Sum.inr.injEq] at hb
      subst hb
      rcases hn with hn | hn
      · exact absurd ha hn
      · simp [hn] at hl
  · simp only [h, LoadSucceeds]
    refine ⟨?_, by simp, ?_, ?_, by simp, by simp⟩
    · intro lr
      constructor
      · intro hr; simp at hr
      · rintro ⟨br1, l1, hb, -, hl1, h3⟩
        simp only [Sum.inr.injEq] at hb
        subst hb
        simp only [hl, Option.some.injEq] at hl1
        subst hl1
        simp [h2] at h3
    · intro br1 hb hne
      simp only [Sum.inr.injEq] at hb
      subst hb
      exact absurd ha hne
    · intro br1 hb hnil
      simp only [Sum.inr.injEq] at hb
      subst hb
      simp [hl] at hnil
  · simp only [h, LoadSucceeds]
    refine ⟨?_, by simp, ?_, ?_, ?_, by simp⟩
    · intro lr1
      constructor
      · intro hr
        simp only [Outcome.returned.injEq] at hr
        subst hr
        exact ⟨br, l, rfl, ha, hl, by simp [h2]⟩
      · rintro ⟨br1, l1, hb, -, hl1, h3⟩
        simp only [Sum.inr.injEq] at hb
        subst hb
        simp only [hl, Option.some.injEq] at hl1
        subst hl1
        simp only [h2, Sum.inr.injEq] at h3
        simp [h3]
    · intro br1 hb hne
      simp only [Sum.inr.injEq] at hb
      subst hb
      exact absurd ha hne
    · intro br1 hb hnil
      simp only [Sum.inr.injEq] at hb
      subst hb
      simp [hl] at hnil
    · intro br1 l1 err hb _ hl1 h3
      simp only [Sum.inr.injEq] at hb
      subst hb
      simp only [hl, Option.some.injEq] at hl1
      subst hl1
      simp [h2] at h3

theorem browseAndLoadList_returns_iff_witness :
    (browseAndLoadList samplePb (sampleServer [⟨"k0"⟩] [] endlessStream) 0
      { Hierarchy := 4, ItemKey := "k0" }).result = .returned { Items := [⟨"k0"⟩] } :=
  ((browseAndLoadList_returns_iff samplePb (sampleServer [⟨"k0"⟩] [] endlessStream) 0
      { Hierarchy := 4, ItemKey := "k0" }).1 { Items := [⟨"k0"⟩] }).2
    ⟨{ Action := 1, List := some { Count := 1 } }, { Count := 1 }, rfl, rfl, rfl, rfl⟩

/-! ## playFirstAlbum -/

/-- C2: in `playFirstAlbum`, for every server, the first call is the Browse
with `PopAll` and no item key, and every later Browse request comes directly
after a successful Load, which comes directly after the Browse with the list
outcome that Load belongs to; the later Browse carries the `ItemKey` of
`Items[0]` of that Load response.  So no Browse lies between the Browse that
produced a list and the Browse that uses a key of that list. -/
theorem playFirstAlbum_item_keys (pb : Pb) (c : RoonServiceClient σ) (s : σ) (zoneID : String) :
    (∃ res0, (playFirstAlbum pb c s zoneID).trace[0]? =
      some (.Browse { Hierarchy := pb.BrowseHierarchy_albums, PopAll := true } res0)) ∧
    ∀ (i : Nat) (req : BrowseRequest) (res : Rpc BrowseResponse),
      (playFirstAlbum pb c s zoneID).trace[i + 1]? = some (.Browse req res) →
      ∃ breq bres lreq lresp item rest,
        1 ≤ i ∧
        (playFirstAlbum pb c s zoneID).trace[i - 1]? = some (.Browse breq (.inr bres)) ∧
        listOutcome pb (.inr bres) = true ∧
        (playFirstAlbum pb c s zoneID).trace[i]? = some (.Load lreq (.inr lresp)) ∧
        lresp.Items = item :: rest ∧ req.ItemKey = item.ItemKey := by
  have hs := playFirstAlbum_shape pb c s zoneID
  generalize (playFirstAlbum pb c s zoneID).trace = t at hs ⊢
  generalize (playFirstAlbum pb c s zoneID).result = r at hs
  constructor
  · rcases hs with ⟨_, _, h1⟩ | ⟨_, _, h1, e1⟩ | ⟨_, _, _, _, _, _, h1, e1, h2⟩ |
      ⟨_, _, _, _, _, _, h1, e1, h2, e2⟩ | ⟨_, _, _, _, _, _, _, _, _, _, h1, e1, h2, e2, h3⟩ |
      ⟨_, _, _, _, _, _, _, _, _, _, h1, e1, h2, e2, h3, e3⟩ |
      ⟨_, _, _, _, _, _, _, _, _, _, _, _, _, h1, e1, h2, e2, h3, e3⟩ |
      ⟨_, _, _, _, _, _, _, _, _, _, _, _, _, h1, e1, h2, e2, h3, e3⟩
    all_goals cases h1
    all_goals simp
  intro i req res hi
  rcases hs with ⟨_, _, h1⟩ | ⟨_, _, h1, e1⟩ | ⟨_, _, _, _, _, _, h1, e1, h2⟩ |
    ⟨_, _, _, _, _, _, h1, e1, h2, e2⟩ | ⟨_, _, _, _, _, _, _, _, _, _, h1, e1, h2, e2, h3⟩ |
    ⟨_, _, _, _, _, _, _, _, _, _, h1, e1, h2, e2, h3, e3⟩ |
    ⟨_, _, _, _, _, _, _, _, _, _, _, _, _, h1, e1, h2, e2, h3, e3⟩ |
    ⟨_, _, _, _, _, _, _, _, _, _, _, _, _, h1, e1, h2, e2, h3, e3⟩
  all_goals cases h1
  all_goals first | cases h2 | skip
  all_goals first | cases h3 | skip
  all_goals
    rcases i with _ | _ | _ | _ | _ | _ | i
    all_goals simp_all [listOutcome]
  all_goals
    obtain ⟨hq, -⟩ := hi
    subst hq
    exact ⟨_, _, ⟨rfl, rfl⟩, ⟨by assumption, by simp [*]⟩, _, _, ⟨rfl, rfl⟩, _,
      ⟨_, by assumption⟩, rfl⟩

theorem playFirstAlbum_item_keys_witness :
    ∃ breq bres lreq lresp item rest,
      1 ≤ 1 ∧
      (playFirstAlbum samplePb (sampleServer [⟨"k0"⟩, ⟨"k1"⟩] [] endlessStream) 0 "z1").trace[1 - 1]? =
        some (.Browse breq (.inr bres)) ∧
      listOutcome samplePb (.inr bres) = true ∧
      (playFirstAlbum samplePb (sampleServer [⟨"k0"⟩, ⟨"k1"⟩] [] endlessStream) 0 "z1").trace[1]? =
        some (.Load lreq (.inr lresp)) ∧
      lresp.Items = item :: rest ∧
      (⟨4, "k0", false, ""⟩ : BrowseRequest).ItemKey = item.ItemKey :=
  (playFirstAlbum_item_keys samplePb (sampleServer [⟨"k0"⟩, ⟨"k1"⟩] [] endlessStream) 0 "z1").2
    1 ⟨4, "k0", false, ""⟩ (.inr { Action := 1, List := some { Count := 2 } }) rfl

theorem playFirstAlbum_seven_calls_trace (pb : Pb) (c : RoonServiceClient σ) (s : σ)
    (zoneID : String)
    (hok : ∀ e ∈ (playFirstAlbum pb c s zoneID).trace, e.failed = false)
    (hlist : ∀ call ∈ (browseCalls (playFirstAlbum pb c s zoneID).trace).take 3,
      listOutcome pb call.2 = true)
    (hitems : ∀ e ∈ (playFirstAlbum pb c s zoneID).trace, e.emptyItems = false) :
    ∃ (r1 r2 r3 r4 : BrowseResponse) (n1 n2 n3 : Nat) (i1 i2 i3 : BrowseItem)
      (x1 x2 x3 : List BrowseItem),
      (playFirstAlbum pb c s zoneID).trace =
        [.Browse ⟨pb.BrowseHierarchy_albums, "", true, ""⟩ (.inr r1),
          .Load ⟨pb.BrowseHierarchy_albums, 0, n1⟩ (.inr ⟨i1 :: x1⟩),
          .Browse ⟨pb.BrowseHierarchy_albums, i1.ItemKey, false, ""⟩ (.inr r2),
          .Load ⟨pb.BrowseHierarchy_albums, 0, n2⟩ (.inr ⟨i2 :: x2⟩),
          .Browse ⟨pb.BrowseHierarchy_albums, i2.ItemKey, false, ""⟩ (.inr r3),
          .Load ⟨pb.BrowseHierarchy_albums, 0, n3⟩ (.inr ⟨i3 :: x3⟩),
          .Browse ⟨pb.BrowseHierarchy_albums, i3.ItemKey, false, zoneID⟩ (.inr r4)] := by
  have hs := playFirstAlbum_shape pb c s zoneID
  generalize (playFirstAlbum pb c s zoneID).trace = t at hs hok hlist hitems ⊢
  generalize (playFirstAlbum pb c s zoneID).result = r at hs
  rcases hs with ⟨_, _, h1⟩ | ⟨_, _, h1, e1⟩ | ⟨_, _, _, _, _, _, h1, e1, h2⟩ |
    ⟨_, _, _, _, _, _, h1, e1, h2, e2⟩ | ⟨_, _, _, _, _, _, _, _, _, _, h1, e1, h2, e2, h3⟩ |
    ⟨_, _, _, _, _, _, _, _, _, _, h1, e1, h2, e2, h3, e3⟩ |
    ⟨_, _, _, _, _, _, _, _, _, _, _, _, _, h1, e1, h2, e2, h3, e3⟩ |
    ⟨t1, t2, t3, r1, r2, r3, i1, i2, i3, x1, x2, x3, resp, h1, e1, h2, e2, h3, e3⟩
  all_goals cases h1
  all_goals first | cases h2 | skip
  all_goals first | cases h3 | skip
  all_goals simp [Event.failed, Event.emptyItems, browseCalls, listOutcome] at hok hlist hitems
  all_goals first
    | (exfalso; simp_all; done)
    | (obtain ⟨y1⟩ := r1
       obtain ⟨y2⟩ := r2
       obtain ⟨y3⟩ := r3
       simp only at e1 e2 e3
       subst e1 e2 e3
       exact ⟨_, _, _, _, _, _, _, _, _, _, _, _, _, rfl⟩)

/-- C4 (amended): for every server run in which no call fails, the first
three Browse calls have a non-nil list outcome, and every Load response has at
least one item and a first item with a non-empty key, `playFirstAlbum` sends
exactly seven calls, Browse, Load, Browse, Load, Browse, Load, Browse; all
seven requests name the albums hierarchy; the first Browse has `PopAll` set
and no item key; each later Browse has an item key, the key of the first item
of the Load response before it, and `PopAll` unset; so every Browse request
carries exactly one of a pop directive and an item key. -/
theorem playFirstAlbum_seven_calls (pb : Pb) (c : RoonServiceClient σ) (s : σ)
    (zoneID : String)
    (hok : ∀ e ∈ (playFirstAlbum pb c s zoneID).trace, e.failed = false)
    (hlist : ∀ call ∈ (browseCalls (playFirstAlbum pb c s zoneID).trace).take 3,
      listOutcome pb call.2 = true)
    (hitems : ∀ e ∈ (playFirstAlbum pb c s zoneID).trace, e.emptyItems = false)
    (hkeys : ∀ e ∈ (playFirstAlbum pb c s zoneID).trace, e.emptyFirstKey = false) :
    (∃ (r1 r2 r3 r4 : BrowseResponse) (n1 n2 n3 : Nat) (i1 i2 i3 : BrowseItem)
      (x1 x2 x3 : List BrowseItem),
      (playFirstAlbum pb c s zoneID).trace =
        [.Browse ⟨pb.BrowseHierarchy_albums, "", true, ""⟩ (.inr r1),
          .Load ⟨pb.BrowseHierarchy_albums, 0, n1⟩ (.inr ⟨i1 :: x1⟩),
          .Browse ⟨pb.BrowseHierarchy_albums, i1.ItemKey, false, ""⟩ (.inr r2),
          .Load ⟨pb.BrowseHierarchy_albums, 0, n2⟩ (.inr ⟨i2 :: x2⟩),
          .Browse ⟨pb.BrowseHierarchy_albums, i2.ItemKey, false, ""⟩ (.inr r3),
          .Load ⟨pb.BrowseHierarchy_albums, 0, n3⟩ (.inr ⟨i3 :: x3⟩),
          .Browse ⟨pb.BrowseHierarchy_albums, i3.ItemKey, false, zoneID⟩ (.inr r4)] ∧
      i1.ItemKey ≠ "" ∧ i2.ItemKey ≠ "" ∧ i3.ItemKey ≠ "") ∧
    (∃ call0, (browseCalls (playFirstAlbum pb c s zoneID).trace)[0]? = some call0 ∧
      call0.1.hasPop = true ∧ call0.1.hasItemKey = false) ∧
    (∀ k call, (browseCalls (playFirstAlbum pb c s zoneID).trace)[k + 1]? = some call →
      call.1.hasPop = false ∧ call.1.hasItemKey = true) ∧
    (browseCalls (playFirstAlbum pb c s zoneID).trace).length = 4 ∧
    (∀ call ∈ browseCalls (playFirstAlbum pb c s zoneID).trace, call.1.exactlyOne = true) := by
  obtain ⟨r1, r2, r3, r4, n1, n2, n3, i1, i2, i3, x1, x2, x3, ht⟩ :=
    playFirstAlbum_seven_calls_trace pb c s zoneID hok hlist hitems
  rw [ht] at hkeys ⊢
  simp only [List.mem_cons, List.mem_singleton, forall_eq_or_imp, forall_eq,
    Event.emptyFirstKey, decide_eq_false_iff_not, List.not_mem_nil, false_imp_iff,
    implies_true, and_true, true_and] at hkeys
  obtain ⟨k1, k2, k3⟩ := hkeys
  refine ⟨⟨r1, r2, r3, r4, n1, n2, n3, i1, i2, i3, x1, x2, x3, rfl, k1, k2, k3⟩, ?_, ?_, ?_, ?_⟩
  · exact ⟨_, rfl, rfl, rfl⟩
  · intro k call hk
    rcases k with _ | _ | _ | k
    all_goals simp [browseCalls] at hk
    all_goals subst hk
    all_goals simp [BrowseRequest.hasPop, BrowseRequest.hasItemKey, k1, k2, k3]
  · rfl
  · simp [browseCalls, BrowseRequest.exactlyOne, BrowseRequest.hasPop,
      BrowseRequest.hasItemKey, k1, k2, k3]

theorem playFirstAlbum_seven_calls_witness :
    ∃ (r1 r2 r3 r4 : BrowseResponse) (n1 n2 n3 : Nat) (i1 i2 i3 : BrowseItem)
      (x1 x2 x3 : List BrowseItem),
      (playFirstAlbum samplePb (sampleServer [⟨"k0"⟩] [] endlessStream) 0 "z1").trace =
        [.Browse ⟨4, "", true, ""⟩ (.inr r1),
          .Load ⟨4, 0, n1⟩ (.inr ⟨i1 :: x1⟩),
          .Browse ⟨4, i1.ItemKey, false, ""⟩ (.inr r2),
          .Load ⟨4, 0, n2⟩ (.inr ⟨i2 :: x2⟩),
          .Browse ⟨4, i2.ItemKey, false, ""⟩ (.inr r3),
          .Load ⟨4, 0, n3⟩ (.inr ⟨i3 :: x3⟩),
          .Browse ⟨4, i3.ItemKey, false, "z1"⟩ (.inr r4)] ∧
      i1.ItemKey ≠ "" ∧ i2.ItemKey ≠ "" ∧ i3.ItemKey ≠ "" :=
  (playFirstAlbum_seven_calls samplePb (sampleServer [⟨"k0"⟩] [] endlessStream) 0 "z1"
    (by decide)
    (by simp [playFirstAlbum, browseAndLoadList, Run.andThen, index0, playAlbumCall,
      sampleServer, browseCalls, listOutcome, samplePb])
    (by decide) (by decide)).1

/-- C4, as stated, fails: against a server whose Load responses hold one item
with an empty key, no call fails, all browse outcomes are non-nil lists and
every Load response has an item, the run makes its seven calls, and the second
Browse request has `PopAll` unset and an empty `ItemKey`: it carries neither a
pop directive nor an item key. -/
theorem playFirstAlbum_seven_calls_counterexample :
    emptyKeyRun.trace.all (fun e => !e.failed) = true ∧
    ((browseCalls emptyKeyRun.trace).take 3).all (fun call => listOutcome samplePb call.2) = true ∧
    emptyKeyRun.trace.all (fun e => !e.emptyItems) = true ∧
    emptyKeyRun.trace.length = 7 ∧
    emptyKeyRun.result = .returned () ∧
    (browseCalls emptyKeyRun.trace)[1]? =
      some (⟨4, "", false, ""⟩, .inr ⟨1, some ⟨1⟩⟩) ∧
    (⟨4, "", false, ""⟩ : BrowseRequest).hasPop = false ∧
    (⟨4, "", false, ""⟩ : BrowseRequest).hasItemKey = false ∧
    (⟨4, "", false, ""⟩ : BrowseRequest).exactlyOne = false := by
  refine ⟨by decide, by decide, by decide, by decide, by decide, by decide, by decide,
    by decide, by decide⟩

/-- C7: in `playFirstAlbum`, for every `zoneID` and every server, the three
navigation Browse requests have an empty `ZoneOrOutputId` and the fourth, final
Browse request has `ZoneOrOutputId` equal to `zoneID`; there is no fifth. -/
theorem playFirstAlbum_zone_target (pb : Pb) (c : RoonServiceClient σ) (s : σ)
    (zoneID : String) (k : Nat) (req : BrowseRequest) (res : Rpc BrowseResponse)
    (hk : (browseCalls (playFirstAlbum pb c s zoneID).trace)[k]? = some (req, res)) :
    (k < 3 ∧ req.ZoneOrOutputId = "") ∨ (k = 3 ∧ req.ZoneOrOutputId = zoneID) := by
  have hs := playFirstAlbum_shape pb c s zoneID
  generalize (playFirstAlbum pb c s zoneID).trace = t at hs hk ⊢
  generalize (playFirstAlbum pb c s zoneID).result = r at hs
  rcases hs with ⟨_, _, h1⟩ | ⟨_, _, h1, e1⟩ | ⟨_, _, _, _, _, _, h1, e1, h2⟩ |
    ⟨_, _, _, _, _, _, h1, e1, h2, e2⟩ | ⟨_, _, _, _, _, _, _, _, _, _, h1, e1, h2, e2, h3⟩ |
    ⟨_, _, _, _, _, _, _, _, _, _, h1, e1, h2, e2, h3, e3⟩ |
    ⟨_, _, _, _, _, _, _, _, _, _, _, _, _, h1, e1, h2, e2, h3, e3⟩ |
    ⟨_, _, _, _, _, _, _, _, _, _, _, _, _, h1, e1, h2, e2, h3, e3⟩
  all_goals cases h1
  all_goals first | cases h2 | skip
  all_goals first | cases h3 | skip
  all_goals
    rcases k with _ | _ | _ | _ | k
    all_goals simp [browseCalls] at hk
    all_goals simp [← hk.1]

theorem playFirstAlbum_zone_target_witness :
    (3 < 3 ∧ (⟨4, "k0", false, "z1"⟩ : BrowseRequest).ZoneOrOutputId = "") ∨
      (3 = 3 ∧ (⟨4, "k0", false, "z1"⟩ : BrowseRequest).ZoneOrOutputId = "z1") :=
  playFirstAlbum_zone_target samplePb (sampleServer [⟨"k0"⟩] [] endlessStream) 0 "z1" 3
    ⟨4, "k0", false, "z1"⟩ (.inr { Action := 1, List := some { Count := 1 } }) rfl

theorem playFirstAlbum_fourth_browse (pb : Pb) (c : RoonServiceClient σ) (s : σ)
    (zoneID : String) (req : BrowseRequest) (res : Rpc BrowseResponse)
    (h4 : (browseCalls (playFirstAlbum pb c s zoneID).trace)[3]? = some (req, res)) :
    (∃ pre, pre.length = 6 ∧ (playFirstAlbum pb c s zoneID).trace = pre ++ [.Browse req res]) ∧
    ((playFirstAlbum pb c s zoneID).result = .returned () ↔ res.isRight = true) ∧
    (res.isLeft = true → (playFirstAlbum pb c s zoneID).result = .fatal .playAlbum) := by
  have hs := playFirstAlbum_shape pb c s zoneID
  generalize (playFirstAlbum pb c s zoneID).trace = t at hs h4 ⊢
  generalize (playFirstAlbum pb c s zoneID).result = r at hs
  rcases hs with ⟨_, _, h1⟩ | ⟨_, _, h1, e1⟩ | ⟨_, _, _, _, _, _, h1, e1, h2⟩ |
    ⟨_, _, _, _, _, _, h1, e1, h2, e2⟩ | ⟨_, _, _, _, _, _, _, _, _, _, h1, e1, h2, e2, h3⟩ |
    ⟨_, _, _, _, _, _, _, _, _, _, h1, e1, h2, e2, h3, e3⟩ |
    ⟨_, _, _, _, _, _, _, _, _, _, _, _, _, h1, e1, h2, e2, h3, e3⟩ |
    ⟨_, _, _, _, _, _, _, _, _, _, _, _, _, h1, e1, h2, e2, h3, e3⟩
  all_goals cases h1
  all_goals first | cases h2 | skip
  all_goals first | cases h3 | skip
  all_goals simp [browseCalls] at h4
  all_goals
    obtain ⟨hq, hr⟩ := h4
    subst hq hr
    exact ⟨⟨[_, _, _, _, _, _], rfl, rfl⟩, by simp, by simp⟩

/-- C10: for every server run of `playFirstAlbum` that reaches the fourth
Browse, that Browse is the last call of the run (no Load follows), and the run
returns if and only if the call returned no error, whatever the response is;
on an error the run exits through `log.Fatalf`. -/
theorem playFirstAlbum_play_outcome (pb : Pb) (c : RoonServiceClient σ) (s : σ)
    (zoneID : String) (req : BrowseRequest) (res : Rpc BrowseResponse)
    (h4 : (browseCalls (playFirstAlbum pb c s zoneID).trace)[3]? = some (req, res)) :
    (∃ pre, pre.length = 6 ∧ (playFirstAlbum pb c s zoneID).trace = pre ++ [.Browse req res]) ∧
    ((playFirstAlbum pb c s zoneID).result = .returned () ↔ res.isRight = true) ∧
    (res.isLeft = true → (playFirstAlbum pb c s zoneID).result = .fatal .playAlbum) :=
  playFirstAlbum_fourth_browse pb c s zoneID req res h4

theorem playFirstAlbum_play_outcome_witness :
    (playFirstAlbum samplePb (sampleServer [⟨"k0"⟩] [] endlessStream) 0 "z1").result =
      .returned () :=
  (playFirstAlbum_play_outcome samplePb (sampleServer [⟨"k0"⟩] [] endlessStream) 0 "z1"
    ⟨4, "k0", false, "z1"⟩ (.inr { Action := 1, List := some { Count := 1 } }) rfl).2.1.2 rfl

/-! ## The subscription loop -/

theorem recvLoop_first_error (c : RoonServiceClient σ) (e : GoError) :
    ∀ (k : Nat) (s : σ) (i : Nat), i + k ≤ 10 →
      (∀ j, j < k → (recvResult c s j).isRight = true) → recvResult c s k = .inl e →
      (recvLoop c s i).trace.length = k + 1 ∧
      (∀ ev ∈ (recvLoop c s i).trace, ev.isRecv = true) ∧
      (recvLoop c s i).result = (if e = .EOF then .returned () else .fatal .recv) := by
  intro k
  induction k with
  | zero =>
    intro s i hi _ he
    have hle : i ≤ 10 := by omega
    unfold recvLoop
    simp only [recvResult, recvState] at he
    rcases h : c.Recv s with ⟨s1, r⟩
    rw [h] at he
    simp only at he
    subst he
    cases e <;> simp [hle, Event.isRecv]
  | succ k ih =>
    intro s i hi hok he
    have hle : i ≤ 10 := by omega
    have h0 := hok 0 (by omega)
    simp only [recvResult, recvState] at h0
    rcases h : c.Recv s with ⟨s1, r⟩
    rw [h] at h0
    rcases r with err | resp
    · simp at h0
    · have hs : ∀ j, recvResult c s (j + 1) = recvResult c s1 j := by
        intro j
        simp [recvResult, recvState, h]
      obtain ⟨h1, h2, h3⟩ := ih s1 (i + 1) (by omega)
        (fun j hj => by rw [← hs]; exact hok (j + 1) (by omega)) (by rw [← hs]; exact he)
      unfold recvLoop
      simp only [hle, if_true, h]
      refine ⟨by simp [h1], ?_, h3⟩
      intro ev hev
      rcases List.mem_cons.1 hev with rfl | hev
      · rfl
      · exact h2 ev hev

theorem recvLoop_no_error (c : RoonServiceClient σ) :
    ∀ (n : Nat) (s : σ) (i : Nat), i + n = 11 →
      (∀ j, j < n → (recvResult c s j).isRight = true) →
      (recvLoop c s i).trace.length = n ∧
      (∀ ev ∈ (recvLoop c s i).trace, ev.isRecv = true) ∧
      (recvLoop c s i).result = .returned () := by
  intro n
  induction n with
  | zero =>
    intro s i hi _
    have hle : ¬ i ≤ 10 := by omega
    unfold recvLoop
    simp [hle]
  | succ n ih =>
    intro s i hi hok
    have hle : i ≤ 10 := by omega
    have h0 := hok 0 (by omega)
    simp only [recvResult, recvState] at h0
    rcases h : c.Recv s with ⟨s1, r⟩
    rw [h] at h0
    rcases r with err | resp
    · simp at h0
    · have hs : ∀ j, recvResult c s (j + 1) = recvResult c s1 j := by
        intro j
        simp [recvResult, recvState, h]
      obtain ⟨h1, h2, h3⟩ := ih s1 (i + 1) (by omega)
        (fun j hj => by rw [← hs]; exact hok (j + 1) (by omega))
      unfold recvLoop
      simp only [hle, if_true, h]
      refine ⟨by simp [h1], ?_, h3⟩
      intro ev hev
      rcases List.mem_cons.1 hev with rfl | hev
      · rfl
      · exact h2 ev hev

theorem recvLoop_bounded (c : RoonServiceClient σ) :
    ∀ (n : Nat) (s : σ) (i : Nat), i + n = 11 →
      (recvLoop c s i).trace.length ≤ n ∧
      (∀ ev ∈ (recvLoop c s i).trace, ev.isRecv = true) ∧
      (∀ p, (recvLoop c s i).result ≠ .panic p) := by
  intro n
  induction n with
  | zero =>
    intro s i hi
    have hle : ¬ i ≤ 10 := by omega
    unfold recvLoop
    simp [hle]
  | succ n ih =>
    intro s i hi
    have hle : i ≤ 10 := by omega
    obtain ⟨h1, h2, h3⟩ := ih (c.Recv s).1 (i + 1) (by omega)
    unfold recvLoop
    simp only [hle, if_true]
    rcases h : c.Recv s with ⟨s1, (_ | msg) | resp⟩
    · simp [Event.isRecv]
    · simp [Event.isRecv]
    · simp only [h] at h1 h2 h3
      refine ⟨by simp only [List.length_cons]; omega, ?_, h3⟩
      intro ev hev
      rcases List.mem_cons.1 hev with rfl | hev
      · rfl
      · exact h2 ev hev

/-- C8: the loop of `main` ends for every stream.  When call number `k` is the
first `Recv` of the stream that reports an error, the loop makes `min 10 k`
calls of `Recv`; when no `Recv` ever reports an error it makes ten.  An
`io.EOF` among the first ten calls ends the loop with the program running on,
any other error there exits the program, and after ten successful receives the
loop stops without a further call.  The loop makes no other call. -/
theorem recvLoop_recv_count (c : RoonServiceClient σ) (s : σ) :
    (∀ (k : Nat) (e : GoError), 1 ≤ k →
      (∀ j, j + 1 < k → (recvResult c s j).isRight = true) →
      recvResult c s (k - 1) = .inl e →
      (recvLoop c s 1).trace.length = min 10 k ∧
      (k ≤ 10 → e = .EOF → (recvLoop c s 1).result = .returned ()) ∧
      (k ≤ 10 → e ≠ .EOF → (recvLoop c s 1).result = .fatal .recv) ∧
      (10 < k → (recvLoop c s 1).result = .returned ())) ∧
    ((∀ j, (recvResult c s j).isRight = true) →
      (recvLoop c s 1).trace.length = 10 ∧ (recvLoop c s 1).result = .returned ()) ∧
    (∀ ev ∈ (recvLoop c s 1).trace, ev.isRecv = true) ∧
    (recvLoop c s 1).trace.length ≤ 10 := by
  refine ⟨?_, ?_, (recvLoop_bounded c 10 s 1 rfl).2.1, (recvLoop_bounded c 10 s 1 rfl).1⟩
  · intro k e hk hok he
    by_cases hk10 : k ≤ 10
    · obtain ⟨h1, -, h3⟩ := recvLoop_first_error c e (k - 1) s 1 (by omega)
        (fun j hj => hok j (by omega)) he
      refine ⟨by rw [h1]; omega, ?_, ?_, by omega⟩
      · intro _ hE
        simp [h3, hE]
      · intro _ hE
        simp [h3, hE]
    · obtain ⟨h1, -, h3⟩ := recvLoop_no_error c 10 s 1 rfl (fun j hj => hok j (by omega))
      refine ⟨by rw [h1]; omega, by omega, by omega, fun _ => h3⟩
  · intro hok
    obtain ⟨h1, -, h3⟩ := recvLoop_no_error c 10 s 1 rfl (fun j _ => hok j)
    exact ⟨h1, h3⟩

theorem recvLoop_recv_count_witness :
    (recvLoop (sampleServer [] [] shortStream) 0 1).trace.length = min 10 3 :=
  ((recvLoop_recv_count (sampleServer [] [] shortStream) 0).1 3 .EOF (by decide)
    (by
      intro j hj
      have h2 : j = 0 ∨ j = 1 := by omega
      rcases h2 with rfl | rfl <;> rfl)
    rfl).1

/-! ## main -/

theorem andThen_indexPanicIff {α β : Type} (r : Run σ α) (k : σ → α → Run σ β)
    (hr : IndexPanicIff r) (hk : ∀ s a, IndexPanicIff (k s a)) :
    IndexPanicIff (r.andThen k) := by
  unfold IndexPanicIff at hr ⊢
  unfold Run.andThen
  rcases h : r.result with a | f | p
  · have hno : ¬ ∃ e ∈ r.trace, e.emptyZones = true ∨ e.emptyItems = true := by
      rw [← hr]
      simp [h]
    have hk1 := hk r.state a
    unfold IndexPanicIff at hk1
    simp only [hk1, List.mem_append]
    constructor
    · rintro ⟨e, he, hb⟩
      exact ⟨e, Or.inr he, hb⟩
    · rintro ⟨e, he | he, hb⟩
      · exact absurd ⟨e, he, hb⟩ hno
      · exact ⟨e, he, hb⟩
  · rw [h] at hr
    simpa using hr
  · rw [h] at hr
    simpa using hr

theorem andThen_panic {α β : Type} (r : Run σ α) (k : σ → α → Run σ β) (p : PanicSite)
    (h : (r.andThen k).result = .panic p) :
    r.result = .panic p ∨ ∃ a, r.result = .returned a ∧ (k r.state a).result = .panic p := by
  unfold Run.andThen at h
  rcases hr : r.result with a | f | q
  · rw [hr] at h
    exact Or.inr ⟨a, rfl, h⟩
  · rw [hr] at h
    simp at h
  · rw [hr] at h
    simp only [Outcome.panic.injEq] at h
    subst h
    exact Or.inl rfl

theorem connectAndGetZone_indexPanicIff (c : RoonServiceClient σ) (s : σ) :
    IndexPanicIff (connectAndGetZone c s) ∧
    ∀ p, (connectAndGetZone c s).result = .panic p → p = .zonesIndex := by
  unfold IndexPanicIff connectAndGetZone
  rcases hd : c.Dial s with ⟨s1, _ | err⟩
  · simp only []
    rcases hl : c.ListAllZones s1 with ⟨s2, err | zones⟩
    · simp [Event.emptyZones, Event.emptyItems]
    · simp only []
      rcases hz : zones.Zones with _ | ⟨z0, zs⟩
      · simp [Event.emptyZones, Event.emptyItems, hz, PanicSite.isIndex]
      · simp only []
        rcases hg : c.GetZone s2 { ZoneId := z0.ZoneId } with ⟨s3, err | zone⟩
        · simp [Event.emptyZones, Event.emptyItems, hz]
        · simp [Event.emptyZones, Event.emptyItems, hz]
  · simp [Event.emptyZones, Event.emptyItems]

theorem derefZone_indexPanicIff (s : σ) (zone : GetZoneResponse) :
    IndexPanicIff (derefZone s zone) ∧
    ∀ p, (derefZone s zone).result = .panic p → p = .zoneNil := by
  unfold IndexPanicIff derefZone
  rcases zone.Zone with _ | z
  · simp [PanicSite.isIndex]
  · simp

theorem subscribeAndReceive_indexPanicIff (c : RoonServiceClient σ) (s : σ) :
    IndexPanicIff (subscribeAndReceive c s) ∧
    ∀ p, (subscribeAndReceive c s).result ≠ .panic p := by
  have hrecv : ∀ ev : Event, ev.isRecv = true →
      ¬ (ev.emptyZones = true ∨ ev.emptyItems = true) := by
    intro ev hev
    cases ev <;> simp [Event.isRecv, Event.emptyZones, Event.emptyItems] at hev ⊢
  unfold IndexPanicIff subscribeAndReceive
  rcases hsub : c.SubscribeZones s with ⟨s1, _ | err⟩
  · simp only []
    obtain ⟨-, h2, h3⟩ := recvLoop_bounded c 10 s1 1 rfl
    refine ⟨?_, fun p => h3 p⟩
    constructor
    · rintro ⟨p, hp, -⟩
      exact absurd hp (h3 p)
    · rintro ⟨e, he, hb⟩
      rcases List.mem_cons.1 he with rfl | he
      · simp [Event.emptyZones, Event.emptyItems] at hb
      · exact absurd hb (hrecv e (h2 e he))
  · simp [Event.emptyZones, Event.emptyItems]

theorem playFirstAlbum_indexPanicIff (pb : Pb) (c : RoonServiceClient σ) (s : σ)
    (zoneID : String) :
    IndexPanicIff (playFirstAlbum pb c s zoneID) ∧
    ∀ p, (playFirstAlbum pb c s zoneID).result = .panic p → p.isIndex = true := by
  unfold IndexPanicIff
  have hs := playFirstAlbum_shape pb c s zoneID
  generalize (playFirstAlbum pb c s zoneID).trace = t at hs ⊢
  generalize (playFirstAlbum pb c s zoneID).result = r at hs
  rcases hs with ⟨_, _, h1⟩ | ⟨_, _, h1, e1⟩ | ⟨_, _, _, _, _, _, h1, e1, h2⟩ |
    ⟨_, _, _, _, _, _, h1, e1, h2, e2⟩ | ⟨_, _, _, _, _, _, _, _, _, _, h1, e1, h2, e2, h3⟩ |
    ⟨_, _, _, _, _, _, _, _, _, _, h1, e1, h2, e2, h3, e3⟩ |
    ⟨_, _, _, _, _, _, _, _, _, _, _, _, _, h1, e1, h2, e2, h3, e3⟩ |
    ⟨_, _, _, _, _, _, _, _, _, _, _, _, _, h1, e1, h2, e2, h3, e3⟩
  all_goals cases h1
  all_goals first | cases h2 | skip
  all_goals first | cases h3 | skip
  all_goals simp [Event.emptyZones, Event.emptyItems, PanicSite.isIndex, *]

theorem main_indexPanicIff (pb : Pb) (c : RoonServiceClient σ) (s : σ) :
    IndexPanicIff (main pb c s) := by
  unfold main
  refine andThen_indexPanicIff _ _ (connectAndGetZone_indexPanicIff c s).1 fun s1 zone => ?_
  refine andThen_indexPanicIff _ _ (derefZone_indexPanicIff s1 zone).1 fun s2 z => ?_
  refine andThen_indexPanicIff _ _ (playFirstAlbum_indexPanicIff pb c s2 z.ZoneId).1 fun s3 _ => ?_
  exact (subscribeAndReceive_indexPanicIff c s3).1

theorem main_panic_sites (pb : Pb) (c : RoonServiceClient σ) (s : σ) (p : PanicSite)
    (h : (main pb c s).result = .panic p) : p = .zoneNil ∨ p.isIndex = true := by
  unfold main at h
  rcases andThen_panic _ _ p h with h | ⟨zone, -, h⟩
  · right
    rw [(connectAndGetZone_indexPanicIff c s).2 p h]
    rfl
  rcases andThen_panic _ _ p h with h | ⟨z, -, h⟩
  · exact Or.inl ((derefZone_indexPanicIff _ zone).2 p h)
  rcases andThen_panic _ _ p h with h | ⟨u, -, h⟩
  · exact Or.inr ((playFirstAlbum_indexPanicIff pb c _ z.ZoneId).2 p h)
  · exact absurd h ((subscribeAndReceive_indexPanicIff c _).2 p)

/-- C9: an index expression of the program (`zones.Zones[0]` in `main`,
`resp.Items[0]` three times in `playFirstAlbum`) goes out of range if and only
if ListAllZones succeeded with zero zones or a Load response returned by
`browseAndLoadList` has zero items; when every zone list and Load response of
the run is non-empty, no index expression is out of range; and the check of
`Action` and `List` does not rule the empty Load response out: a server whose
list outcome has count 0 and whose Load response has no items makes
`resp.Items[0]` panic. -/
theorem main_index_out_of_range_iff (pb : Pb) (c : RoonServiceClient σ) (s : σ) :
    ((∃ p, (main pb c s).result = .panic p ∧ p.isIndex = true) ↔
      ∃ e ∈ (main pb c s).trace, e.emptyZones = true ∨ e.emptyItems = true) ∧
    ((∀ e ∈ (main pb c s).trace, e.emptyZones = false ∧ e.emptyItems = false) →
      ∀ p, (main pb c s).result = .panic p → p.isIndex = false) ∧
    ((main samplePb (sampleServer [] [⟨"z1"⟩] endlessStream) 0).result =
        .panic .itemsIndex1 ∧
      (main samplePb (sampleServer [] [⟨"z1"⟩] endlessStream) 0).trace =
        [.Dial none, .ListAllZones (.inr ⟨[⟨"z1"⟩]⟩),
          .GetZone ⟨"z1"⟩ (.inr ⟨some ⟨"z1"⟩⟩),
          .Browse ⟨4, "", true, ""⟩ (.inr ⟨1, some ⟨0⟩⟩),
          .Load ⟨4, 0, 0⟩ (.inr ⟨[]⟩)]) := by
  refine ⟨main_indexPanicIff pb c s, ?_, rfl, rfl⟩
  intro hne p hp
  by_contra hidx
  have hi : p.isIndex = true := by simpa using hidx
  obtain ⟨e, he, hb⟩ := (main_indexPanicIff pb c s).1 ⟨p, hp, hi⟩
  have := hne e he
  rcases hb with hb | hb
  · simp [this.1] at hb
  · simp [this.2] at hb

theorem main_index_out_of_range_iff_witness :
    ∃ p, (main samplePb (sampleServer [⟨"k0"⟩] [] endlessStream) 0).result = .panic p ∧
      p.isIndex = true :=
  (main_index_out_of_range_iff samplePb (sampleServer [⟨"k0"⟩] [] endlessStream) 0).1.2
    ⟨.ListAllZones (.inr ⟨[]⟩), by decide, Or.inl rfl⟩

/-- C6: no run of the program dereferences a nil `List`: `browseAndLoadList`
reads `List.Count` only for the Load request, and every Load request it sends
carries the count of a response whose `Action` is `list` and whose `List` is
not nil; and the run of `playFirstAlbum` returns whatever response the final
Browse yields, no field of that response being read. -/
theorem list_count_read_after_check (pb : Pb) (c : RoonServiceClient σ) (s : σ) :
    (main pb c s).result ≠ .panic .listNil ∧
    (∀ zoneID, (playFirstAlbum pb c s zoneID).result ≠ .panic .listNil) ∧
    (∀ b, (browseAndLoadList pb c s b).result ≠ .panic .listNil ∧
      ∀ lreq lres, Event.Load lreq lres ∈ (browseAndLoadList pb c s b).trace →
        ∃ br l, (c.Browse s b).2 = .inr br ∧ br.Action = pb.BrowseAction_list ∧
          br.List = some l ∧ lreq.Count = l.Count) ∧
    (∀ zoneID req resp,
      (browseCalls (playFirstAlbum pb c s zoneID).trace)[3]? = some (req, .inr resp) →
      (playFirstAlbum pb c s zoneID).result = .returned ()) := by
  refine ⟨?_, ?_, ?_, ?_⟩
  · intro h
    rcases main_panic_sites pb c s _ h with h1 | h1
    · simp at h1
    · simp [PanicSite.isIndex] at h1
  · intro zoneID h
    have := (playFirstAlbum_indexPanicIff pb c s zoneID).2 _ h
    simp [PanicSite.isIndex] at this
  · intro b
    have hc := browseAndLoadList_case pb c s b
    generalize browseAndLoadList pb c s b = r at hc
    rcases hc with
      ⟨s1, err, h⟩ | ⟨s1, br, h, hn⟩ | ⟨s1, s2, br, l, err, h, ha, hl, h2⟩ |
      ⟨s1, s2, br, l, lr, h, ha, hl, h2⟩
    · simp
    · simp
    · refine ⟨by simp, ?_⟩
      intro lreq lres hm
      simp only [List.mem_cons, Event.Load.injEq, List.mem_singleton, reduceCtorEq,
        false_or, List.not_mem_nil, or_false] at hm
      exact ⟨br, l, by rw [h], ha, hl, by rw [hm.1]⟩
    · refine ⟨by simp, ?_⟩
      intro lreq lres hm
      simp only [List.mem_cons, Event.Load.injEq, List.mem_singleton, reduceCtorEq,
        false_or, List.not_mem_nil, or_false] at hm
      exact ⟨br, l, by rw [h], ha, hl, by rw [hm.1]⟩
  · intro zoneID req resp h4
    exact (playFirstAlbum_fourth_browse pb c s zoneID req (.inr resp) h4).2.1.2 rfl

theorem list_count_read_after_check_witness :
    (playFirstAlbum samplePb (sampleServer [⟨"k0"⟩] [] endlessStream) 0 "z1").result =
      .returned () :=
  (list_count_read_after_check samplePb (sampleServer [⟨"k0"⟩] [] endlessStream) 0).2.2.2
    "z1" ⟨4, "k0", false, "z1"⟩ { Action := 1, List := some { Count := 1 } } rfl

end BridgeClient
